import Mathlib

/-!
# Verification of Brokkr's logging subsystem (`src/brokkr/logger.py`)

Shallow embedding of the queue-based log listener, the severity mapper,
the worker-side emitter setup and the handler-configuration renderer,
together with proofs about the specified properties.

Python integers are modelled as `Int`; Python dicts keyed by small literal
key sets are modelled as association lists; fallible operations (KeyError,
AttributeError, ValueError, uncaught exceptions) return `Option`/`Except`.
-/

namespace Brokkr

/-! ## Severity mapper (`determine_log_level`, logger.py lines 27-61)

`logging.CRITICAL = 50`, `logging.ERROR = 40`, `logging.WARNING = 30`,
`logging.INFO = 20`, `logging.DEBUG = 10` (Python stdlib constants). -/

def MAX_VERBOSE : Int := 3

def MIN_VERBOSE : Int := -3

/-- The `LOG_LEVEL` dict literal of logger.py lines 29-37, with the stdlib
`logging` level constants substituted by their numeric values. -/
def LOG_LEVEL : List (Int × Int) :=
  [(-3, 99), (-2, 50), (-1, 40), (0, 30), (1, 20), (2, 10), (3, 2)]

/-- Dict subscript access `LOG_LEVEL[v]`: `none` models a KeyError. -/
def logLevelLookup (v : Int) : Option Int :=
  LOG_LEVEL.lookup v

/-- `determine_log_level` (logger.py lines 55-61).  The argument is an
integer, so Python's `round(verbose)` is the identity. -/
def determine_log_level (verbose : Int) : Option Int :=
  if verbose > MAX_VERBOSE then logLevelLookup MAX_VERBOSE
  else if verbose < MIN_VERBOSE then logLevelLookup MIN_VERBOSE
  else logLevelLookup verbose

/-! ## Listener loop (`handle_queued_log_record`, logger.py lines 162-211;
`run_log_listener`, lines 214-226)

A log record is modelled with its origin name (used by
`logging.getLogger(log_record.name)` for destination lookup) and a `good`
flag modelling whether `record_logger.handle(log_record)` succeeds or
raises (a malformed record / destination error).  The queue holds records
and at most the distinguished `LOG_RECORD_SENTINEL`, modelled as its own
constructor. -/

structure LogRecord where
  name : String
  level : Int
  msg : String
  good : Bool
deriving DecidableEq, Repr

inductive QItem where
  | record (r : LogRecord)
  | sentinel
deriving DecidableEq, Repr

/-- One entry of the listener's fallback channel (the module logger
`logging.getLogger(__name__)`), one constructor per logging call site in
`handle_queued_log_record`. -/
inductive Fallback where
  | shuttingDown
  | lateRecord (item : QItem)
  | shutdownComplete
  | dispatchWarning (r : LogRecord)
  | dispatchErrorInfo
  | dispatchRecordInfo (r : LogRecord)
deriving DecidableEq, Repr

/-- Exceptions that can escape `handle_queued_log_record`. -/
inductive PyErr where
  | attributeError
  | stopIteration
deriving DecidableEq, Repr

/-- State threaded through the listener loop: the shared queue (FIFO, head
is next to dequeue), the records handed to destination loggers together
with the logger name each was looked up under, the fallback channel, the
outer exit event flag, whether `log_queue.close()` ran, and whether
`logging.shutdown()` ran. -/
structure ListenerState where
  queue : List QItem
  delivered : List (String × LogRecord)
  fallback : List Fallback
  exitEventSet : Bool
  queueClosed : Bool
  loggingShutdown : Bool
deriving DecidableEq, Repr

def initListenerState (q : List QItem) : ListenerState :=
  { queue := q, delivered := [], fallback := [], exitEventSet := false,
    queueClosed := false, loggingShutdown := false }

/-- `outer_exit_event.set()` (logger.py line 176).  The parameter
`hasOuterEvent` records whether `outer_exit_event` is `None`; calling
`.set()` on `None` raises AttributeError. -/
def outerEventSet (hasOuterEvent : Bool) (st : ListenerState) :
    Except PyErr ListenerState :=
  if hasOuterEvent then .ok { st with exitEventSet := true }
  else .error .attributeError

/-- The inner `while True` drain loop (logger.py lines 180-187): dequeue
non-blocking, warn `"Record found in log queue past shutdown"` for each
item, break on Empty. -/
def drainLoop (q : List QItem) : List Fallback :=
  match q with
  | [] => []
  | item :: rest => .lateRecord item :: drainLoop rest

/-- The sentinel branch of `handle_queued_log_record` (logger.py lines
175-199): set the outer exit event, drain the queue warning per late item,
close the queue and join its feeder thread, shut logging down, then the
`if outer_exit_event is None: raise StopIteration` check. -/
def sentinelBranch (hasOuterEvent : Bool) (st : ListenerState) :
    Except PyErr (ListenerState × Option LogRecord) := do
  let st ← outerEventSet hasOuterEvent st
  let st := { st with fallback := st.fallback ++ [Fallback.shuttingDown] }
  let st := { st with
    fallback := st.fallback ++ drainLoop st.queue,
    queue := [],
    queueClosed := true }
  let st := { st with
    fallback := st.fallback ++ [Fallback.shutdownComplete],
    loggingShutdown := true }
  if hasOuterEvent = false then .error .stopIteration
  else .ok (st, none)

/-- Record dispatch (logger.py lines 201-209):
`logging.getLogger(log_record.name).handle(log_record)`, with any raised
exception caught and reported through the fallback channel; the function
returns the record in either case. -/
def dispatchRecord (st : ListenerState) (r : LogRecord) :
    ListenerState × Option LogRecord :=
  if r.good then
    ({ st with delivered := st.delivered ++ [(r.name, r)] }, some r)
  else
    ({ st with fallback := st.fallback ++
        [.dispatchWarning r, .dispatchErrorInfo, .dispatchRecordInfo r] },
     some r)

/-- `handle_queued_log_record` (logger.py lines 162-211).  An empty queue
models the `queue.Empty` timeout: try again, returning `log_record = None`.
Otherwise the head item is dequeued; the sentinel triggers the shutdown
branch, a record is dispatched to its destination logger. -/
def handle_queued_log_record (hasOuterEvent : Bool) (st : ListenerState) :
    Except PyErr (ListenerState × Option LogRecord) :=
  match st.queue with
  | [] => .ok (st, none)
  | item :: rest =>
    let st := { st with queue := rest }
    match item with
    | .sentinel => sentinelBranch hasOuterEvent st
    | .record r => .ok (dispatchRecord st r)

/-- Modelled from the spec: `run_log_listener` drives
`handle_queued_log_record` through `brokkr.utils.misc.run_periodic`, whose
source is not under src/.  Per the spec the Listener Loop repeatedly takes
the next item until shutdown, so the driver iterates the step function
until the outer exit event is set (fuel bounds the iteration count). -/
def runListenerSteps (fuel : Nat) (hasOuterEvent : Bool)
    (st : ListenerState) : Except PyErr ListenerState :=
  match fuel with
  | 0 => .ok st
  | fuel + 1 => do
    let (st, _) ← handle_queued_log_record hasOuterEvent st
    if st.exitEventSet then .ok st
    else runListenerSteps fuel hasOuterEvent st

/-- Modelled from the spec: `run_log_listener` (logger.py lines 214-226)
creates a fresh outer exit event (so `hasOuterEvent = true`) and runs the
listener loop over the queue. -/
def run_log_listener (q : List QItem) (fuel : Nat) :
    Except PyErr ListenerState :=
  runListenerSteps fuel true (initListenerState q)

/-! ## Worker-side emitter setup (`setup_worker_config`, logger.py lines
151-154)

`setup_worker_config(log_queue, filter_level)` constructs a fresh
`logging.handlers.QueueHandler(log_queue)` object and calls
`root_logger.addHandler` on it, then `root_logger.setLevel(filter_level)`.
`Logger.addHandler` (stdlib) appends the handler only if that same object
is not already attached, with object identity modelled by a fresh id per
construction.  A `QueueHandler` keeps the stdlib default handler level
`NOTSET = 0`, so every record the root logger passes is enqueued once per
attached handler targeting that queue. -/

structure QueueHandlerObj where
  hid : Nat
  queue : Nat
deriving DecidableEq, Repr

structure RootLogger where
  handlers : List QueueHandlerObj
  level : Int
  nextId : Nat
deriving DecidableEq, Repr

def initRootLogger : RootLogger :=
  { handlers := [], level := 30, nextId := 0 }

/-- stdlib `Logger.addHandler`: append unless the same object is present. -/
def addHandler (st : RootLogger) (h : QueueHandlerObj) : RootLogger :=
  if h ∈ st.handlers then st
  else { st with handlers := st.handlers ++ [h] }

/-- `setup_worker_config` (logger.py lines 151-154). -/
def setup_worker_config (log_queue : Nat) (filter_level : Int)
    (st : RootLogger) : RootLogger :=
  let h : QueueHandlerObj := { hid := st.nextId, queue := log_queue }
  let st := addHandler { st with nextId := st.nextId + 1 } h
  { st with level := filter_level }

/-- Emitting one record at severity `level` on the worker's root logger:
if the record clears the root filter, each attached queue handler puts one
copy into its target queue; the result lists the queue of every copy
delivered, in handler order. -/
def emitRecord (st : RootLogger) (level : Int) : List Nat :=
  if st.level ≤ level then st.handlers.map (fun h => h.queue) else []

/-- How many copies of a single emitted record arrive in queue `q`. -/
def deliveryCount (st : RootLogger) (level : Int) (q : Nat) : Nat :=
  (emitRecord st level).count q

/-! ## Handler configuration renderer (logger.py lines 97-148)

Level values in the routing configuration are Python values: `None`, a
string level name, or an int. -/

inductive PyLevel where
  | none
  | str (s : String)
  | int (n : Int)
deriving DecidableEq, Repr

/-- Python truthiness of a level value: `None` and `""` and `0` are falsy. -/
def PyLevel.truthy : PyLevel → Bool
  | .none => false
  | .str s => s ≠ ""
  | .int n => n ≠ 0

/-- Python `level == 0`: only the int `0` compares equal to `0`
(`None == 0` and `"" == 0` are both `False`). -/
def PyLevel.eqZero : PyLevel → Bool
  | .int n => n == 0
  | _ => false

/-- stdlib `str.upper()` for ASCII level names, character by character. -/
def pyUpper (s : String) : String :=
  String.mk (s.data.map Char.toUpper)

/-- `level.upper() if isinstance(level, str) else level`
(logger.py lines 98-101). -/
def PyLevel.upperIfStr : PyLevel → PyLevel
  | .str s => .str (pyUpper s)
  | l => l

/-- `getattr(logging, name, default)` restricted to the stdlib level-name
attributes of the `logging` module; `none` means the attribute is absent
and the default is used. -/
def loggingGetattr (name : String) : Option Int :=
  if name = "CRITICAL" then some 50
  else if name = "FATAL" then some 50
  else if name = "ERROR" then some 40
  else if name = "WARNING" then some 30
  else if name = "WARN" then some 30
  else if name = "INFO" then some 20
  else if name = "DEBUG" then some 10
  else if name = "NOTSET" then some 0
  else Option.none

/-- Decimal digits to a number; `none` when empty or a non-digit occurs. -/
def pyNatOfDigits (cs : List Char) : Option Nat :=
  if cs = [] then Option.none
  else cs.foldl (fun acc c => acc.bind (fun n =>
    if c.isDigit then some (10 * n + (c.toNat - 48)) else Option.none))
    (some 0)

/-- stdlib `int(s)` on a decimal string with an optional sign; `none`
models the ValueError on anything else. -/
def pyInt (s : String) : Option Int :=
  match s.data with
  | '-' :: rest => (pyNatOfDigits rest).map (fun n => -(n : Int))
  | '+' :: rest => (pyNatOfDigits rest).map (fun n => (n : Int))
  | cs => (pyNatOfDigits cs).map (fun n => (n : Int))

/-- `int(getattr(logging, str(level_name), level_name))` (logger.py line
110): an int maps to itself (its decimal string is not a `logging`
attribute, and `int` of an int is the int); a string resolves through the
`logging` module attributes, else through `int(s)` which raises ValueError
(`none`) on a non-numeric string; `None` never reaches this conversion in
`setup_log_levels` but would raise (`none`). -/
def levelNameToInt : PyLevel → Option Int
  | .int n => some n
  | .str s =>
    match loggingGetattr s with
    | some n => some n
    | Option.none => pyInt s
  | .none => Option.none

/-- One handler entry of the routing configuration dict: its severity
threshold and, for file handlers, its `filename` value (a template string,
replaced by a resolved path object by `setup_log_handler_paths`). -/
structure PyPath where
  absolute : Bool
  components : List String
deriving DecidableEq, Repr

inductive FileName where
  | str (s : String)
  | path (p : PyPath)
deriving DecidableEq, Repr

structure HandlerConfig where
  level : PyLevel
  filename : Option FileName
deriving DecidableEq, Repr

structure RootConfig where
  level : PyLevel
  handlers : List String
deriving DecidableEq, Repr

structure LogConfig where
  handlers : List (String × HandlerConfig)
  root : RootConfig
deriving DecidableEq, Repr

/-- `log_config["handlers"][key]["level"] = v`: update the entry under
`key`; `none` models the KeyError when the key is absent. -/
def dictSetLevel (hs : List (String × HandlerConfig)) (key : String)
    (v : PyLevel) : Option (List (String × HandlerConfig)) :=
  match hs with
  | [] => Option.none
  | (k, h) :: rest =>
    if k = key then some ((k, { h with level := v }) :: rest)
    else (dictSetLevel rest key v).map (fun r => (k, h) :: r)

/-- The body of the `for handler, level in ...` loop of `setup_log_levels`
(logger.py lines 102-106) for one `(handler, level)` pair. -/
def applyHandlerOverride (cfg : LogConfig) (handler : String)
    (level : PyLevel) : Option LogConfig :=
  if level.truthy then do
    let hs ← dictSetLevel cfg.handlers handler level
    let rootHandlers :=
      if cfg.root.handlers.contains handler then cfg.root.handlers
      else cfg.root.handlers ++ [handler]
    some { handlers := hs,
           root := { cfg.root with handlers := rootHandlers } }
  else some cfg

/-- `setup_log_levels` (logger.py lines 97-113). -/
def setup_log_levels (cfg : LogConfig)
    (file_level console_level : PyLevel) : Option LogConfig := do
  let file_level := file_level.upperIfStr
  let console_level := console_level.upperIfStr
  let cfg ← applyHandlerOverride cfg "file" file_level
  let cfg ← applyHandlerOverride cfg "console" console_level
  let levels_tocheck := [file_level, console_level, cfg.root.level].filter
    (fun l => l.eqZero || l.truthy)
  let ints ← levels_tocheck.mapM levelNameToInt
  let level_min ← ints.min?
  some { cfg with root := { cfg.root with level := .int level_min } }

/-! ### File handler path resolution (`setup_log_handler_paths`, logger.py
lines 116-130) -/

/-- stdlib `str.format(**filename_args)`: substitute each provided token
`\x7bkey\x7d` by its value.  Total model for templates whose tokens are all
provided (the KeyError on a missing token is not modelled; no claim
exercises it). -/
def pyFormat (s : String) (args : List (String × String)) : String :=
  args.foldl (fun acc kv =>
    acc.replace ("\x7b" ++ kv.1 ++ "\x7d") kv.2) s

/-- Split a character list on the path separator. -/
def splitSlash : List Char → List Char → List String
  | [], acc => [String.mk acc.reverse]
  | c :: rest, acc =>
    if c = '/' then String.mk acc.reverse :: splitSlash rest []
    else splitSlash rest (c :: acc)

/-- Modelled from the spec: `brokkr.utils.misc.convert_path` is not under
src/.  Per the spec it turns the substituted filename string into a path
value; a path is absolute exactly when the string starts with the path
separator, and its components are the non-empty separator-delimited
segments. -/
def convert_path (s : String) : PyPath :=
  { absolute := s.data.head? = some '/',
    components := (splitSlash s.data []).filter (fun c => c ≠ "") }

/-- pathlib `/` join, used under the `not log_filename.is_absolute()`
guard: anchor a relative path below a base. -/
def PyPath.join (base p : PyPath) : PyPath :=
  if p.absolute then p
  else { absolute := base.absolute,
         components := base.components ++ p.components }

/-- pathlib `.parent`: drop the final component. -/
def PyPath.parent (p : PyPath) : PyPath :=
  { p with components := p.components.dropLast }

/-- The filesystem directory set, as the list of directories that exist. -/
abbrev FS := List PyPath

def FS.insertDir (fs : FS) (d : PyPath) : FS :=
  if d ∈ fs then fs else fs ++ [d]

/-- Every non-empty prefix of the path, shallowest first: the directories
`os.makedirs(..., exist_ok=True)` creates or finds. -/
def PyPath.ancestors (p : PyPath) : List PyPath :=
  (List.range p.components.length).map
    (fun i => { absolute := p.absolute, components := p.components.take (i + 1) })

/-- `os.makedirs(path, exist_ok=True)` (logger.py line 127): create the
directory and all intermediates, succeeding when they already exist. -/
def makedirs (fs : FS) (p : PyPath) : FS :=
  p.ancestors.foldl FS.insertDir fs

/-- Python truthiness of `log_handler.get("filename", None)` (logger.py
line 122): `None` and the empty string are falsy; a path object is truthy. -/
def fileNameTruthy : Option FileName → Bool
  | Option.none => false
  | some (.str s) => s ≠ ""
  | some (.path _) => true

/-- The body of the `for log_handler in log_config["handlers"].values()`
loop of `setup_log_handler_paths` (logger.py lines 121-128) for one
handler: substitute tokens, convert to a path, anchor a relative result
under `output_path` when `output_path` is truthy, create the parent
directories and store the resolved path back.  `none` models the
AttributeError of calling `.format` on an already-resolved path value. -/
def resolveHandlerPath (output_path : Option PyPath)
    (args : List (String × String)) (h : HandlerConfig) (fs : FS) :
    Option (HandlerConfig × FS) :=
  if fileNameTruthy h.filename then
    match h.filename with
    | some (.str s) =>
      let log_filename := convert_path (pyFormat s args)
      let log_filename :=
        match output_path with
        | some base =>
          if ¬ log_filename.absolute then base.join log_filename
          else log_filename
        | Option.none => log_filename
      let fs := makedirs fs log_filename.parent
      some ({ h with filename := some (.path log_filename) }, fs)
    | _ => Option.none
  else some (h, fs)

def resolveHandlerPaths (output_path : Option PyPath)
    (args : List (String × String)) :
    List (String × HandlerConfig) → FS →
    Option (List (String × HandlerConfig) × FS)
  | [], fs => some ([], fs)
  | (k, h) :: rest, fs => do
    let (h, fs) ← resolveHandlerPath output_path args h fs
    let (rest, fs) ← resolveHandlerPaths output_path args rest fs
    some ((k, h) :: rest, fs)

/-- `setup_log_handler_paths` (logger.py lines 116-130), with the
filesystem state threaded explicitly. -/
def setup_log_handler_paths (cfg : LogConfig)
    (output_path : Option PyPath) (args : List (String × String))
    (fs : FS) : Option (LogConfig × FS) := do
  let (hs, fs) ← resolveHandlerPaths output_path args cfg.handlers fs
  some ({ cfg with handlers := hs }, fs)

/-- `render_full_log_config` (logger.py lines 133-148).  `copy.deepcopy`
is the identity in this pure model; `any((log_level_file,
log_level_console))` is Python truthiness of either override. -/
def render_full_log_config (cfg : LogConfig)
    (log_level_file log_level_console : PyLevel)
    (output_path : Option PyPath) (args : List (String × String))
    (fs : FS) : Option (LogConfig × FS) := do
  let (cfg, fs) ← setup_log_handler_paths cfg output_path args fs
  if log_level_file.truthy || log_level_console.truthy then
    let cfg ← setup_log_levels cfg log_level_file log_level_console
    some (cfg, fs)
  else
    some (cfg, fs)

/-! ## Theorems -/

/-- C1 (counterexample): the claim swaps the two clamping directions.  At
verbosity 10 (above `MAX_VERBOSE`) the code returns threshold 2, which is
not above the most severe standard level `CRITICAL = 50`; at verbosity -10
(below `MIN_VERBOSE`) it returns `MIN_VERBOSE`'s mapped value 99, which is
not the least severe threshold of the table (that is 2). -/
theorem determine_log_level_claim_counterexample :
    determine_log_level 10 = some 2 ∧ ¬ ((50 : Int) < 2) ∧
    determine_log_level (-10) = some 99 ∧
    (LOG_LEVEL.map Prod.snd).min? = some 2 ∧ (99 : Int) ≠ 2 := by
  decide

/-- C1 (amended): for verbosity strictly above `MAX_VERBOSE`,
`determine_log_level` returns `MAX_VERBOSE`'s mapped value 2, the least
severe (most permissive) threshold of the table; for verbosity strictly
below `MIN_VERBOSE` it returns `MIN_VERBOSE`'s mapped value 99, which lies
above the most severe standard level `CRITICAL = 50` and so disables all
emission. -/
theorem determine_log_level_clamps (v : Int) :
    (MAX_VERBOSE < v →
      determine_log_level v = logLevelLookup MAX_VERBOSE ∧
      determine_log_level v = some 2 ∧ ∀ p ∈ LOG_LEVEL, 2 ≤ p.2) ∧
    (v < MIN_VERBOSE →
      determine_log_level v = logLevelLookup MIN_VERBOSE ∧
      determine_log_level v = some 99 ∧ (50 : Int) < 99) := by
  constructor
  · intro h
    unfold determine_log_level
    rw [if_pos h]
    exact ⟨rfl, by decide, by decide⟩
  · intro h
    have h1 : ¬ (MAX_VERBOSE < v) := by
      unfold MAX_VERBOSE; unfold MIN_VERBOSE at h; omega
    unfold determine_log_level
    rw [if_neg h1, if_pos h]
    exact ⟨rfl, by decide, by decide⟩

/-- C1 (witness): the amended clamping behaviour at verbosity 10 and -10. -/
theorem determine_log_level_clamps_witness :
    determine_log_level 10 = some 2 ∧ determine_log_level (-10) = some 99 :=
  ⟨((determine_log_level_clamps 10).1 (by decide)).2.1,
   ((determine_log_level_clamps (-10)).2 (by decide)).2.1⟩

/-- C6: `determine_log_level` clamps below `MIN_VERBOSE` to
`determine_log_level MIN_VERBOSE` and above `MAX_VERBOSE` to
`determine_log_level MAX_VERBOSE`, and inside the range the returned
threshold is non-increasing in the verbosity. -/
theorem determine_log_level_clamped_monotone :
    (∀ v : Int, v ≤ MIN_VERBOSE →
      determine_log_level v = determine_log_level MIN_VERBOSE) ∧
    (∀ v : Int, MAX_VERBOSE ≤ v →
      determine_log_level v = determine_log_level MAX_VERBOSE) ∧
    (∀ v w a b : Int, MIN_VERBOSE ≤ v → v ≤ w → w ≤ MAX_VERBOSE →
      determine_log_level v = some a → determine_log_level w = some b →
      b ≤ a) := by
  refine ⟨?_, ?_, ?_⟩
  · intro v hv
    have hv' : v = -3 ∨ v < -3 := by unfold MIN_VERBOSE at hv; omega
    unfold determine_log_level MIN_VERBOSE MAX_VERBOSE
    rcases hv' with h | h
    · subst h; norm_num
    · rw [if_neg (by omega), if_pos (by omega)]
      norm_num
  · intro v hv
    have hv' : v = 3 ∨ 3 < v := by unfold MAX_VERBOSE at hv; omega
    unfold determine_log_level MIN_VERBOSE MAX_VERBOSE
    rcases hv' with h | h
    · subst h; norm_num
    · rw [if_pos (by omega)]
      norm_num
  · intro v w a b h1 h2 h3 hv hw
    unfold MIN_VERBOSE at h1
    unfold MAX_VERBOSE at h3
    have h4 : v ≤ 3 := le_trans h2 h3
    have h5 : (-3 : Int) ≤ w := le_trans h1 h2
    interval_cases v <;> interval_cases w <;>
      simp [determine_log_level, logLevelLookup, LOG_LEVEL, List.lookup,
        MIN_VERBOSE, MAX_VERBOSE] at hv hw <;> omega

/-- C6 (witness): the clamping and monotonicity at concrete verbosities. -/
theorem determine_log_level_clamped_monotone_witness :
    determine_log_level (-5) = determine_log_level MIN_VERBOSE ∧
    determine_log_level 7 = determine_log_level MAX_VERBOSE ∧
    (20 : Int) ≤ 30 :=
  ⟨determine_log_level_clamped_monotone.1 (-5) (by decide),
   determine_log_level_clamped_monotone.2.1 7 (by decide),
   determine_log_level_clamped_monotone.2.2 0 1 30 20 (by decide)
     (by decide) (by decide) (by decide) (by decide)⟩

/-- C2 (counterexample): after two identical calls of
`setup_worker_config` on a fresh root logger, a single record emitted at
level 20 with filter level 10 is delivered to the queue twice, not exactly
once as claimed. -/
theorem setup_worker_config_twice_counterexample :
    deliveryCount
      (setup_worker_config 0 10 (setup_worker_config 0 10 initRootLogger))
      20 0 = 2 ∧ (2 : Nat) ≠ 1 := by
  decide

/-- C2 (amended): `setup_worker_config` is not idempotent: each call
constructs a fresh `QueueHandler` object, which `addHandler` does not
recognise as already attached, so after two identical calls a single
record at or above the filter level is delivered to the queue twice
(once per call), while after one call it is delivered exactly once. -/
theorem setup_worker_config_not_idempotent (q : Nat) (fl l : Int)
    (h : fl ≤ l) :
    deliveryCount
      (setup_worker_config q fl (setup_worker_config q fl initRootLogger))
      l q = 2 ∧
    deliveryCount (setup_worker_config q fl initRootLogger) l q = 1 := by
  simp [deliveryCount, emitRecord, setup_worker_config, addHandler,
    initRootLogger, h, List.count_cons]

/-- C2 (witness): the amended non-idempotence at queue 0, filter level 10,
record level 20. -/
theorem setup_worker_config_not_idempotent_witness :
    deliveryCount
      (setup_worker_config 0 10 (setup_worker_config 0 10 initRootLogger))
      20 0 = 2 ∧
    deliveryCount (setup_worker_config 0 10 initRootLogger) 20 0 = 1 :=
  setup_worker_config_not_idempotent 0 10 20 (by norm_num)

/-- Helper for the listener-loop theorems: from any state whose queue
holds dispatchable records followed by the sentinel and whose exit event
is unset, the loop delivers every record in order to the logger named by
its origin, then sets the exit event, closes the queue and shuts down. -/
theorem runListenerSteps_delivers (rs : List LogRecord)
    (st : ListenerState)
    (hgood : ∀ r ∈ rs, r.good = true)
    (hq : st.queue = rs.map QItem.record ++ [QItem.sentinel])
    (hev : st.exitEventSet = false) :
    runListenerSteps (rs.length + 1) true st =
      .ok { queue := [],
            delivered := st.delivered ++ rs.map (fun r => (r.name, r)),
            fallback := st.fallback ++
              [Fallback.shuttingDown, Fallback.shutdownComplete],
            exitEventSet := true, queueClosed := true,
            loggingShutdown := true } := by
  induction rs generalizing st with
  | nil =>
    simp only [List.map_nil, List.nil_append] at hq
    simp [runListenerSteps, handle_queued_log_record, hq, sentinelBranch,
      outerEventSet, drainLoop, Bind.bind, Except.bind]
  | cons r rs ih =>
    have hr : r.good = true := hgood r (by simp)
    have hrs : ∀ x ∈ rs, x.good = true := fun x hx => hgood x (by simp [hx])
    simp only [List.map_cons, List.cons_append] at hq
    have hstep : handle_queued_log_record true st =
        .ok (({ st with
                queue := rs.map QItem.record ++ [QItem.sentinel],
                delivered := st.delivered ++ [(r.name, r)] } :
            ListenerState), some r) := by
      simp [handle_queued_log_record, hq, dispatchRecord, hr]
    simp only [List.length_cons]
    rw [runListenerSteps, hstep]
    simp only [Bind.bind, Except.bind, hev, Bool.false_eq_true, if_false]
    rw [ih { st with
        queue := rs.map QItem.record ++ [QItem.sentinel],
        delivered := st.delivered ++ [(r.name, r)],
        exitEventSet := false } hrs rfl rfl]
    simp

/-- C3: for a queue preloaded with dispatchable records R1..Rn followed by
the sentinel, `run_log_listener` hands R1..Rn in enqueue order to the
destination loggers named by each record's origin, then stops with the
exit event set, the queue drained and closed, and logging shut down. -/
theorem run_log_listener_delivers_in_order (rs : List LogRecord)
    (hgood : ∀ r ∈ rs, r.good = true) :
    run_log_listener (rs.map QItem.record ++ [QItem.sentinel])
        (rs.length + 1) =
      .ok { queue := [],
            delivered := rs.map (fun r => (r.name, r)),
            fallback := [Fallback.shuttingDown, Fallback.shutdownComplete],
            exitEventSet := true, queueClosed := true,
            loggingShutdown := true } := by
  unfold run_log_listener
  rw [runListenerSteps_delivers rs (initListenerState _) hgood rfl rfl]
  simp [initListenerState]

/-- C3 (witness): two concrete records then the sentinel are delivered in
order to loggers "alpha" and "beta", and the listener stops cleanly. -/
theorem run_log_listener_delivers_in_order_witness :
    run_log_listener
        [QItem.record { name := "alpha", level := 20, msg := "m1",
                        good := true },
         QItem.record { name := "beta", level := 30, msg := "m2",
                        good := true },
         QItem.sentinel] 3 =
      .ok { queue := [],
            delivered :=
              [("alpha", { name := "alpha", level := 20, msg := "m1",
                           good := true }),
               ("beta", { name := "beta", level := 30, msg := "m2",
                          good := true })],
            fallback := [Fallback.shuttingDown, Fallback.shutdownComplete],
            exitEventSet := true, queueClosed := true,
            loggingShutdown := true } :=
  run_log_listener_delivers_in_order
    [{ name := "alpha", level := 20, msg := "m1", good := true },
     { name := "beta", level := 30, msg := "m2", good := true }]
    (by decide)

/-- The drain loop reports exactly the queued items, in order, as
late-record warnings. -/
theorem drainLoop_eq_map (q : List QItem) :
    drainLoop q = q.map Fallback.lateRecord := by
  induction q with
  | nil => rfl
  | cons i rest ih => simp [drainLoop, ih]

/-- C4: when the sentinel is dequeued with items still behind it, every
such item is reported through the fallback channel as a late-record
warning in order, none is handed to a destination logger (the delivered
list is unchanged), and the queue is emptied and then closed. -/
theorem handle_sentinel_drains_late_records (st : ListenerState)
    (rest : List QItem) (hq : st.queue = QItem.sentinel :: rest) :
    handle_queued_log_record true st =
      .ok (({ queue := [],
              delivered := st.delivered,
              fallback := st.fallback ++ Fallback.shuttingDown ::
                (rest.map Fallback.lateRecord ++
                  [Fallback.shutdownComplete]),
              exitEventSet := true, queueClosed := true,
              loggingShutdown := true } : ListenerState), none) ∧
    drainLoop rest = rest.map Fallback.lateRecord := by
  refine ⟨?_, drainLoop_eq_map rest⟩
  simp [handle_queued_log_record, hq, sentinelBranch, outerEventSet,
    drainLoop_eq_map, Bind.bind, Except.bind]

/-- C4 (witness): two records behind the sentinel are both reported as
late-record warnings, never delivered, and the queue ends empty and
closed. -/
theorem handle_sentinel_drains_late_records_witness :
    handle_queued_log_record true (initListenerState
        [QItem.sentinel,
         QItem.record { name := "a", level := 20, msg := "x",
                        good := true },
         QItem.record { name := "b", level := 30, msg := "y",
                        good := true }]) =
      .ok (({ queue := [],
              delivered := [],
              fallback := [Fallback.shuttingDown,
                Fallback.lateRecord (QItem.record
                  { name := "a", level := 20, msg := "x", good := true }),
                Fallback.lateRecord (QItem.record
                  { name := "b", level := 30, msg := "y", good := true }),
                Fallback.shutdownComplete],
              exitEventSet := true, queueClosed := true,
              loggingShutdown := true } : ListenerState), none) ∧
    drainLoop
        [QItem.record { name := "a", level := 20, msg := "x",
                        good := true },
         QItem.record { name := "b", level := 30, msg := "y",
                        good := true }] =
      [Fallback.lateRecord (QItem.record
          { name := "a", level := 20, msg := "x", good := true }),
       Fallback.lateRecord (QItem.record
          { name := "b", level := 30, msg := "y", good := true })] :=
  handle_sentinel_drains_late_records
    (initListenerState
      [QItem.sentinel,
       QItem.record { name := "a", level := 20, msg := "x", good := true },
       QItem.record { name := "b", level := 30, msg := "y", good := true }])
    [QItem.record { name := "a", level := 20, msg := "x", good := true },
     QItem.record { name := "b", level := 30, msg := "y", good := true }]
    rfl

/-- C5: a dispatch failure is caught: the listener appends a warning
describing the failure and the offending record to its fallback channel,
leaves the delivered list unchanged, and returns normally; and in a
good-bad-good sequence both well-formed records are delivered. -/
theorem dispatch_failure_recovered :
    (∀ (st : ListenerState) (r : LogRecord) (rest : List QItem),
      st.queue = QItem.record r :: rest → r.good = false →
      handle_queued_log_record true st =
        .ok (({ st with
                queue := rest,
                fallback := st.fallback ++
                  [Fallback.dispatchWarning r, Fallback.dispatchErrorInfo,
                   Fallback.dispatchRecordInfo r] } : ListenerState),
          some r)) ∧
    (∀ r1 r2 r3 : LogRecord, r1.good = true → r2.good = false →
      r3.good = true →
      runListenerSteps 3 true (initListenerState
          [QItem.record r1, QItem.record r2, QItem.record r3]) =
        .ok { queue := [],
              delivered := [(r1.name, r1), (r3.name, r3)],
              fallback := [Fallback.dispatchWarning r2,
                Fallback.dispatchErrorInfo, Fallback.dispatchRecordInfo r2],
              exitEventSet := false, queueClosed := false,
              loggingShutdown := false }) := by
  constructor
  · intro st r rest hq hbad
    simp [handle_queued_log_record, hq, dispatchRecord, hbad]
  · intro r1 r2 r3 h1 h2 h3
    simp [runListenerSteps, handle_queued_log_record, initListenerState,
      dispatchRecord, h1, h2, h3, Bind.bind, Except.bind]

/-- C5 (witness): the recovery behaviour at a concrete malformed record
between two concrete well-formed ones. -/
theorem dispatch_failure_recovered_witness :
    handle_queued_log_record true (initListenerState
        [QItem.record { name := "bad", level := 20, msg := "m",
                        good := false }]) =
      .ok (({ queue := [],
              delivered := [],
              fallback := [Fallback.dispatchWarning
                  { name := "bad", level := 20, msg := "m", good := false },
                Fallback.dispatchErrorInfo,
                Fallback.dispatchRecordInfo
                  { name := "bad", level := 20, msg := "m",
                    good := false }],
              exitEventSet := false, queueClosed := false,
              loggingShutdown := false } : ListenerState),
        some { name := "bad", level := 20, msg := "m", good := false }) ∧
    runListenerSteps 3 true (initListenerState
        [QItem.record { name := "g1", level := 20, msg := "a",
                        good := true },
         QItem.record { name := "bad", level := 20, msg := "m",
                        good := false },
         QItem.record { name := "g2", level := 20, msg := "b",
                        good := true }]) =
      .ok { queue := [],
            delivered :=
              [("g1", { name := "g1", level := 20, msg := "a",
                        good := true }),
               ("g2", { name := "g2", level := 20, msg := "b",
                        good := true })],
            fallback := [Fallback.dispatchWarning
                { name := "bad", level := 20, msg := "m", good := false },
              Fallback.dispatchErrorInfo,
              Fallback.dispatchRecordInfo
                { name := "bad", level := 20, msg := "m", good := false }],
            exitEventSet := false, queueClosed := false,
            loggingShutdown := false } :=
  ⟨dispatch_failure_recovered.1 _ _ [] rfl rfl,
   dispatch_failure_recovered.2 _ _ _ rfl rfl rfl⟩

/-- C10: dequeuing the sentinel while `outer_exit_event` is `None` raises
AttributeError at the unconditional `outer_exit_event.set()` call, and the
StopIteration branch guarded by the later `is None` check is unreachable
for every input. -/
theorem sentinel_without_event_raises :
    (∀ (st : ListenerState) (rest : List QItem),
      st.queue = QItem.sentinel :: rest →
      handle_queued_log_record false st = .error PyErr.attributeError) ∧
    (∀ (hasEvt : Bool) (st : ListenerState),
      handle_queued_log_record hasEvt st ≠ .error PyErr.stopIteration) := by
  constructor
  · intro st rest hq
    simp [handle_queued_log_record, hq, sentinelBranch, outerEventSet,
      Bind.bind, Except.bind]
  · intro hasEvt st
    match hqq : st.queue with
    | [] => simp [handle_queued_log_record, hqq]
    | QItem.record r :: rest =>
      simp [handle_queued_log_record, hqq]
    | QItem.sentinel :: rest =>
      cases hasEvt <;>
        simp [handle_queued_log_record, hqq, sentinelBranch, outerEventSet,
          Bind.bind, Except.bind]

/-- C10 (witness): at a queue holding just the sentinel, the call without
an outer exit event raises AttributeError, and the call with one does not
raise StopIteration. -/
theorem sentinel_without_event_raises_witness :
    handle_queued_log_record false (initListenerState [QItem.sentinel]) =
      .error PyErr.attributeError ∧
    handle_queued_log_record true (initListenerState [QItem.sentinel]) ≠
      .error PyErr.stopIteration :=
  ⟨sentinel_without_event_raises.1 _ [] rfl,
   sentinel_without_event_raises.2 true _⟩

/-- The per-handler override loop never touches the root level. -/
theorem applyHandlerOverride_root_level (cfg : LogConfig) (h : String)
    (l : PyLevel) (cfg' : LogConfig)
    (heq : applyHandlerOverride cfg h l = some cfg') :
    cfg'.root.level = cfg.root.level := by
  unfold applyHandlerOverride at heq
  split at heq
  · cases hd : dictSetLevel cfg.handlers h l with
    | none => rw [hd] at heq; simp [Bind.bind, Option.bind] at heq
    | some hs =>
      rw [hd] at heq
      simp only [Bind.bind, Option.bind, Option.some.injEq] at heq
      rw [← heq]
  · simp only [Option.some.injEq] at heq
    rw [← heq]

/-- C7: merging only `file_level = "DEBUG"` into a configuration with root
level WARNING and active handlers `["console"]` yields root level
`DEBUG = 10`, active handlers `["console", "file"]` and file-handler
threshold DEBUG; and in general (all levels supplied and convertible) the
resulting root level is the numeric minimum over the prior root level and
the supplied overrides. -/
theorem setup_log_levels_merges_minimum :
    (setup_log_levels
        { handlers :=
            [("console", { level := PyLevel.str "INFO",
                           filename := Option.none }),
             ("file", { level := PyLevel.str "INFO",
                        filename := some (FileName.str "run.log") })],
          root := { level := PyLevel.str "WARNING",
                    handlers := ["console"] } }
        (PyLevel.str "DEBUG") PyLevel.none =
      some
        { handlers :=
            [("console", { level := PyLevel.str "INFO",
                           filename := Option.none }),
             ("file", { level := PyLevel.str "DEBUG",
                        filename := some (FileName.str "run.log") })],
          root := { level := PyLevel.int 10,
                    handlers := ["console", "file"] } }) ∧
    (∀ (cfg cfg' : LogConfig) (fl cl : PyLevel) (nf nc nr : Int),
      fl.upperIfStr.truthy = true → cl.upperIfStr.truthy = true →
      cfg.root.level.truthy = true →
      levelNameToInt fl.upperIfStr = some nf →
      levelNameToInt cl.upperIfStr = some nc →
      levelNameToInt cfg.root.level = some nr →
      setup_log_levels cfg fl cl = some cfg' →
      cfg'.root.level = PyLevel.int (min (min nf nc) nr)) ∧
    (∀ (cfg cfg' : LogConfig) (fl cl : PyLevel) (nf nr : Int),
      fl.upperIfStr.truthy = true → cl.upperIfStr.truthy = false →
      cl.upperIfStr.eqZero = false →
      cfg.root.level.truthy = true →
      levelNameToInt fl.upperIfStr = some nf →
      levelNameToInt cfg.root.level = some nr →
      setup_log_levels cfg fl cl = some cfg' →
      cfg'.root.level = PyLevel.int (min nf nr)) := by
  refine ⟨by decide, ?_, ?_⟩
  · intro cfg cfg' fl cl nf nc nr hfl hcl hrl hnf hnc hnr heq
    unfold setup_log_levels at heq
    cases h1 : applyHandlerOverride cfg "file" fl.upperIfStr with
    | none => simp [h1, Bind.bind, Option.bind] at heq
    | some cfg1 =>
      cases h2 : applyHandlerOverride cfg1 "console" cl.upperIfStr with
      | none => simp [h1, h2, Bind.bind, Option.bind] at heq
      | some cfg2 =>
        have e1 := applyHandlerOverride_root_level _ _ _ _ h1
        have e2 := applyHandlerOverride_root_level _ _ _ _ h2
        rw [e1] at e2
        simp only [h1, h2, Bind.bind, Option.bind, List.filter, e2, hrl,
          hfl, hcl, Bool.or_true, List.mapM_cons, List.mapM_nil, hnf, hnc,
          hnr, pure, List.min?, List.foldl_cons, List.foldl_nil,
          Option.some.injEq] at heq
        rw [← heq]
  · intro cfg cfg' fl cl nf nr hfl hcl hclz hrl hnf hnr heq
    unfold setup_log_levels at heq
    cases h1 : applyHandlerOverride cfg "file" fl.upperIfStr with
    | none => simp [h1, Bind.bind, Option.bind] at heq
    | some cfg1 =>
      cases h2 : applyHandlerOverride cfg1 "console" cl.upperIfStr with
      | none => simp [h1, h2, Bind.bind, Option.bind] at heq
      | some cfg2 =>
        have e1 := applyHandlerOverride_root_level _ _ _ _ h1
        have e2 := applyHandlerOverride_root_level _ _ _ _ h2
        rw [e1] at e2
        simp only [h1, h2, Bind.bind, Option.bind, List.filter, e2, hrl,
          hfl, hcl, hclz, Bool.or_true, Bool.or_false, List.mapM_cons,
          List.mapM_nil, hnf, hnr, pure, List.min?, List.foldl_cons,
          List.foldl_nil, Option.some.injEq] at heq
        rw [← heq]

/-- C7 (witness): the general minimum rule at concrete levels
`file = "DEBUG"`, `console = "ERROR"`, prior root `WARNING`, and the
file-only rule at `file = "DEBUG"`, `console = None`, prior root
`WARNING`. -/
theorem setup_log_levels_merges_minimum_witness :
    (setup_log_levels
        { handlers :=
            [("console", { level := PyLevel.str "INFO",
                           filename := Option.none }),
             ("file", { level := PyLevel.str "INFO",
                        filename := some (FileName.str "run.log") })],
          root := { level := PyLevel.str "WARNING",
                    handlers := ["console"] } }
        (PyLevel.str "DEBUG") (PyLevel.str "ERROR")).map
      (fun c => c.root.level) = some (PyLevel.int (min (min 10 40) 30)) ∧
    (setup_log_levels
        { handlers :=
            [("console", { level := PyLevel.str "INFO",
                           filename := Option.none }),
             ("file", { level := PyLevel.str "INFO",
                        filename := some (FileName.str "run.log") })],
          root := { level := PyLevel.str "WARNING",
                    handlers := ["console"] } }
        (PyLevel.str "DEBUG") PyLevel.none).map
      (fun c => c.root.level) = some (PyLevel.int (min 10 30)) := by
  constructor
  · have h := setup_log_levels_merges_minimum.2.1
      { handlers :=
          [("console", { level := PyLevel.str "INFO",
                         filename := Option.none }),
           ("file", { level := PyLevel.str "INFO",
                      filename := some (FileName.str "run.log") })],
        root := { level := PyLevel.str "WARNING",
                  handlers := ["console"] } }
      { handlers :=
          [("console", { level := PyLevel.str "ERROR",
                         filename := Option.none }),
           ("file", { level := PyLevel.str "DEBUG",
                      filename := some (FileName.str "run.log") })],
        root := { level := PyLevel.int 10,
                  handlers := ["console", "file"] } }
      (PyLevel.str "DEBUG") (PyLevel.str "ERROR") 10 40 30
      (by decide) (by decide) (by decide) (by decide) (by decide)
      (by decide) (by decide)
    rw [show setup_log_levels
        { handlers :=
            [("console", { level := PyLevel.str "INFO",
                           filename := Option.none }),
             ("file", { level := PyLevel.str "INFO",
                        filename := some (FileName.str "run.log") })],
          root := { level := PyLevel.str "WARNING",
                    handlers := ["console"] } }
        (PyLevel.str "DEBUG") (PyLevel.str "ERROR") = some
        { handlers :=
            [("console", { level := PyLevel.str "ERROR",
                           filename := Option.none }),
             ("file", { level := PyLevel.str "DEBUG",
                        filename := some (FileName.str "run.log") })],
          root := { level := PyLevel.int 10,
                    handlers := ["console", "file"] } } from by decide]
    exact congrArg some h
  · have h := setup_log_levels_merges_minimum.2.2
      { handlers :=
          [("console", { level := PyLevel.str "INFO",
                         filename := Option.none }),
           ("file", { level := PyLevel.str "INFO",
                      filename := some (FileName.str "run.log") })],
        root := { level := PyLevel.str "WARNING",
                  handlers := ["console"] } }
      { handlers :=
          [("console", { level := PyLevel.str "INFO",
                         filename := Option.none }),
           ("file", { level := PyLevel.str "DEBUG",
                      filename := some (FileName.str "run.log") })],
        root := { level := PyLevel.int 10,
                  handlers := ["console", "file"] } }
      (PyLevel.str "DEBUG") PyLevel.none 10 30
      (by decide) (by decide) (by decide) (by decide) (by decide)
      (by decide) (by decide)
    rw [show setup_log_levels
        { handlers :=
            [("console", { level := PyLevel.str "INFO",
                           filename := Option.none }),
             ("file", { level := PyLevel.str "INFO",
                        filename := some (FileName.str "run.log") })],
          root := { level := PyLevel.str "WARNING",
                    handlers := ["console"] } }
        (PyLevel.str "DEBUG") PyLevel.none = some
        { handlers :=
            [("console", { level := PyLevel.str "INFO",
                           filename := Option.none }),
             ("file", { level := PyLevel.str "DEBUG",
                        filename := some (FileName.str "run.log") })],
          root := { level := PyLevel.int 10,
                    handlers := ["console", "file"] } } from by decide]
    exact congrArg some h

/-! ### Filesystem lemmas for `os.makedirs(..., exist_ok=True)` -/

theorem mem_insertDir_of_mem (fs : FS) (d e : PyPath) (h : e ∈ fs) :
    e ∈ fs.insertDir d := by
  unfold FS.insertDir
  split
  · exact h
  · exact List.mem_append_left _ h

theorem mem_insertDir_self (fs : FS) (d : PyPath) : d ∈ fs.insertDir d := by
  unfold FS.insertDir
  split
  · assumption
  · exact List.mem_append_right _ (List.mem_singleton.mpr rfl)

theorem insertDir_of_mem (fs : FS) (d : PyPath) (h : d ∈ fs) :
    fs.insertDir d = fs := by
  unfold FS.insertDir
  rw [if_pos h]

theorem mem_foldl_insertDir_of_mem (ds : List PyPath) (fs : FS)
    (e : PyPath) (h : e ∈ fs) : e ∈ ds.foldl FS.insertDir fs := by
  induction ds generalizing fs with
  | nil => exact h
  | cons d ds ih => exact ih _ (mem_insertDir_of_mem _ _ _ h)

theorem mem_foldl_insertDir_self (ds : List PyPath) (fs : FS) (d : PyPath)
    (h : d ∈ ds) : d ∈ ds.foldl FS.insertDir fs := by
  induction ds generalizing fs with
  | nil => cases h
  | cons a ds ih =>
    simp only [List.foldl_cons]
    rcases List.mem_cons.mp h with h' | h'
    · subst h'
      exact mem_foldl_insertDir_of_mem ds _ d (mem_insertDir_self fs d)
    · exact ih _ h'

theorem foldl_insertDir_of_subset (ds : List PyPath) (fs : FS)
    (h : ∀ d ∈ ds, d ∈ fs) : ds.foldl FS.insertDir fs = fs := by
  induction ds with
  | nil => rfl
  | cons a ds ih =>
    simp only [List.foldl_cons]
    rw [insertDir_of_mem _ _ (h a (List.mem_cons_self a ds))]
    exact ih (fun d hd => h d (List.mem_cons_of_mem a hd))

theorem subset_makedirs (fs : FS) (p : PyPath) :
    ∀ e ∈ fs, e ∈ makedirs fs p :=
  fun e he => mem_foldl_insertDir_of_mem _ _ _ he

theorem ancestors_mem_makedirs (fs : FS) (p : PyPath) :
    ∀ d ∈ p.ancestors, d ∈ makedirs fs p :=
  fun d hd => mem_foldl_insertDir_self _ _ _ hd

theorem makedirs_of_mem (fs : FS) (p : PyPath)
    (h : ∀ d ∈ p.ancestors, d ∈ fs) : makedirs fs p = fs :=
  foldl_insertDir_of_subset _ _ h

theorem makedirs_idem (fs : FS) (p : PyPath) :
    makedirs (makedirs fs p) p = makedirs fs p :=
  makedirs_of_mem _ _ (ancestors_mem_makedirs fs p)

/-- Path resolution only ever grows the set of existing directories. -/
theorem resolveHandlerPath_fs_mono (out : Option PyPath)
    (args : List (String × String)) (h h1 : HandlerConfig) (fs fs1 : FS)
    (heq : resolveHandlerPath out args h fs = some (h1, fs1)) :
    ∀ e ∈ fs, e ∈ fs1 := by
  unfold resolveHandlerPath at heq
  split at heq
  · match hf : h.filename with
    | Option.none => rw [hf] at heq; cases heq
    | some (FileName.path p) => rw [hf] at heq; cases heq
    | some (FileName.str s) =>
      rw [hf] at heq
      simp only [Option.some.injEq, Prod.mk.injEq] at heq
      rw [← heq.2]
      exact subset_makedirs _ _
  · simp only [Option.some.injEq, Prod.mk.injEq] at heq
    rw [← heq.2]
    exact fun e he => he

theorem resolveHandlerPaths_fs_mono (out : Option PyPath)
    (args : List (String × String)) (hs : List (String × HandlerConfig))
    (fs : FS) (hs' : List (String × HandlerConfig)) (fs' : FS)
    (heq : resolveHandlerPaths out args hs fs = some (hs', fs')) :
    ∀ e ∈ fs, e ∈ fs' := by
  induction hs generalizing fs hs' with
  | nil =>
    simp only [resolveHandlerPaths, Option.some.injEq, Prod.mk.injEq] at heq
    rw [← heq.2]
    exact fun e he => he
  | cons kh rest ih =>
    obtain ⟨k, hc⟩ := kh
    unfold resolveHandlerPaths at heq
    cases h1 : resolveHandlerPath out args hc fs with
    | none => simp [h1, Bind.bind, Option.bind] at heq
    | some p1 =>
      obtain ⟨h1c, fs1⟩ := p1
      cases h2 : resolveHandlerPaths out args rest fs1 with
      | none => simp [h1, h2, Bind.bind, Option.bind] at heq
      | some p2 =>
        obtain ⟨rest1, fsr⟩ := p2
        simp only [h1, h2, Bind.bind, Option.bind, Option.some.injEq,
          Prod.mk.injEq] at heq
        rw [heq.2] at h2
        intro e he
        exact ih fs1 rest1 h2 e
          (resolveHandlerPath_fs_mono _ _ _ _ _ _ h1 e he)

/-- Re-resolving one handler against a filesystem that already holds the
directories the first run created is a no-op on the filesystem and
recomputes the same resolved handler. -/
theorem resolveHandlerPath_rerun (out : Option PyPath)
    (args : List (String × String)) (h h1 : HandlerConfig)
    (fs fs1 fs2 : FS)
    (heq : resolveHandlerPath out args h fs = some (h1, fs1))
    (hsub : ∀ e ∈ fs1, e ∈ fs2) :
    resolveHandlerPath out args h fs2 = some (h1, fs2) := by
  unfold resolveHandlerPath at heq ⊢
  split at heq
  case isTrue ht =>
    rw [if_pos ht]
    match hf : h.filename with
    | Option.none => rw [hf] at heq; cases heq
    | some (FileName.path p) => rw [hf] at heq; cases heq
    | some (FileName.str s) =>
      rw [hf] at heq
      simp only [Option.some.injEq, Prod.mk.injEq] at heq ⊢
      refine ⟨heq.1, ?_⟩
      apply makedirs_of_mem
      intro d hd
      apply hsub
      rw [← heq.2]
      exact ancestors_mem_makedirs _ _ _ hd
  case isFalse ht =>
    rw [if_neg ht]
    simp only [Option.some.injEq, Prod.mk.injEq] at heq ⊢
    exact ⟨heq.1, trivial⟩

theorem resolveHandlerPaths_rerun (out : Option PyPath)
    (args : List (String × String)) (hs : List (String × HandlerConfig))
    (fs : FS) (hs' : List (String × HandlerConfig)) (fs' : FS)
    (heq : resolveHandlerPaths out args hs fs = some (hs', fs')) :
    resolveHandlerPaths out args hs fs' = some (hs', fs') := by
  induction hs generalizing fs hs' with
  | nil =>
    simp only [resolveHandlerPaths, Option.some.injEq, Prod.mk.injEq] at heq
    simp only [resolveHandlerPaths, Option.some.injEq, Prod.mk.injEq]
    exact ⟨heq.1, trivial⟩
  | cons kh rest ih =>
    obtain ⟨k, hc⟩ := kh
    unfold resolveHandlerPaths at heq ⊢
    cases h1 : resolveHandlerPath out args hc fs with
    | none => simp [h1, Bind.bind, Option.bind] at heq
    | some p1 =>
      obtain ⟨h1c, fs1⟩ := p1
      cases h2 : resolveHandlerPaths out args rest fs1 with
      | none => simp [h1, h2, Bind.bind, Option.bind] at heq
      | some p2 =>
        obtain ⟨rest1, fsr⟩ := p2
        simp only [h1, h2, Bind.bind, Option.bind, Option.some.injEq,
          Prod.mk.injEq] at heq
        rw [heq.2] at h2
        have hsub : ∀ e ∈ fs1, e ∈ fs' :=
          resolveHandlerPaths_fs_mono _ _ _ _ _ _ h2
        have hr1 : resolveHandlerPath out args hc fs' = some (h1c, fs') :=
          resolveHandlerPath_rerun _ _ _ _ _ _ _ h1 hsub
        have hr2 : resolveHandlerPaths out args rest fs' =
            some (rest1, fs') := ih fs1 rest1 h2
        rw [hr1]
        simp only [Bind.bind, Option.bind, hr2, Option.some.injEq,
          Prod.mk.injEq]
        exact ⟨heq.1, trivial⟩

/-- C8: `setup_log_handler_paths` anchors the relative filename
`"run.log"` under the base directory `/var/log/agent`, giving
`/var/log/agent/run.log` with the parent directories created; it leaves
the already-absolute filename `/tmp/x.log` unanchored; directory creation
is idempotent; and re-running the resolution with identical inputs over
the resulting filesystem leaves the filesystem unchanged. -/
theorem setup_log_handler_paths_resolves :
    (setup_log_handler_paths
        { handlers :=
            [("console", { level := PyLevel.str "INFO",
                           filename := Option.none }),
             ("file", { level := PyLevel.str "INFO",
                        filename := some (FileName.str "run.log") })],
          root := { level := PyLevel.str "WARNING",
                    handlers := ["console"] } }
        (some { absolute := true, components := ["var", "log", "agent"] })
        [] [] =
      some
        ({ handlers :=
             [("console", { level := PyLevel.str "INFO",
                            filename := Option.none }),
              ("file", { level := PyLevel.str "INFO",
                         filename := some (FileName.path
                           { absolute := true,
                             components :=
                               ["var", "log", "agent", "run.log"] }) })],
           root := { level := PyLevel.str "WARNING",
                     handlers := ["console"] } },
         [{ absolute := true, components := ["var"] },
          { absolute := true, components := ["var", "log"] },
          { absolute := true, components := ["var", "log", "agent"] }])) ∧
    (setup_log_handler_paths
        { handlers :=
            [("file", { level := PyLevel.str "INFO",
                        filename := some (FileName.str "/tmp/x.log") })],
          root := { level := PyLevel.str "WARNING",
                    handlers := ["console"] } }
        (some { absolute := true, components := ["var", "log", "agent"] })
        [] [] =
      some
        ({ handlers :=
             [("file", { level := PyLevel.str "INFO",
                         filename := some (FileName.path
                           { absolute := true,
                             components := ["tmp", "x.log"] }) })],
           root := { level := PyLevel.str "WARNING",
                     handlers := ["console"] } },
         [{ absolute := true, components := ["tmp"] }])) ∧
    (∀ (fs : FS) (p : PyPath),
      makedirs (makedirs fs p) p = makedirs fs p) ∧
    (∀ (cfg : LogConfig) (out : Option PyPath)
        (args : List (String × String)) (fs : FS) (cfg' : LogConfig)
        (fs' : FS),
      setup_log_handler_paths cfg out args fs = some (cfg', fs') →
      setup_log_handler_paths cfg out args fs' = some (cfg', fs')) := by
  refine ⟨by decide, by decide, makedirs_idem, ?_⟩
  intro cfg out args fs cfg' fs' heq
  unfold setup_log_handler_paths at heq ⊢
  cases h1 : resolveHandlerPaths out args cfg.handlers fs with
  | none => simp [h1, Bind.bind, Option.bind] at heq
  | some p =>
    obtain ⟨hs1, fsr⟩ := p
    simp only [h1, Bind.bind, Option.bind, Option.some.injEq,
      Prod.mk.injEq] at heq
    rw [heq.2] at h1
    rw [resolveHandlerPaths_rerun _ _ _ _ _ _ h1]
    simp only [Bind.bind, Option.bind, Option.some.injEq, Prod.mk.injEq]
    exact ⟨heq.1, trivial⟩

/-- C8 (witness): re-running the resolution of `"run.log"` under
`/var/log/agent` over the filesystem produced by the first run changes
nothing: the directories already exist. -/
theorem setup_log_handler_paths_resolves_witness :
    setup_log_handler_paths
        { handlers :=
            [("console", { level := PyLevel.str "INFO",
                           filename := Option.none }),
             ("file", { level := PyLevel.str "INFO",
                        filename := some (FileName.str "run.log") })],
          root := { level := PyLevel.str "WARNING",
                    handlers := ["console"] } }
        (some { absolute := true, components := ["var", "log", "agent"] })
        []
        [{ absolute := true, components := ["var"] },
         { absolute := true, components := ["var", "log"] },
         { absolute := true, components := ["var", "log", "agent"] }] =
      some
        ({ handlers :=
             [("console", { level := PyLevel.str "INFO",
                            filename := Option.none }),
              ("file", { level := PyLevel.str "INFO",
                         filename := some (FileName.path
                           { absolute := true,
                             components :=
                               ["var", "log", "agent", "run.log"] }) })],
           root := { level := PyLevel.str "WARNING",
                     handlers := ["console"] } },
         [{ absolute := true, components := ["var"] },
          { absolute := true, components := ["var", "log"] },
          { absolute := true, components := ["var", "log", "agent"] }]) :=
  setup_log_handler_paths_resolves.2.2.2
    { handlers :=
        [("console", { level := PyLevel.str "INFO",
                       filename := Option.none }),
         ("file", { level := PyLevel.str "INFO",
                    filename := some (FileName.str "run.log") })],
      root := { level := PyLevel.str "WARNING",
                handlers := ["console"] } }
    (some { absolute := true, components := ["var", "log", "agent"] })
    [] []
    { handlers :=
        [("console", { level := PyLevel.str "INFO",
                       filename := Option.none }),
         ("file", { level := PyLevel.str "INFO",
                    filename := some (FileName.path
                      { absolute := true,
                        components :=
                          ["var", "log", "agent", "run.log"] }) })],
      root := { level := PyLevel.str "WARNING",
                handlers := ["console"] } }
    [{ absolute := true, components := ["var"] },
     { absolute := true, components := ["var", "log"] },
     { absolute := true, components := ["var", "log", "agent"] }]
    (by decide)

/-- Path resolution never touches a handler's severity threshold. -/
theorem resolveHandlerPath_level (out : Option PyPath)
    (args : List (String × String)) (h h1 : HandlerConfig) (fs fs1 : FS)
    (heq : resolveHandlerPath out args h fs = some (h1, fs1)) :
    h1.level = h.level := by
  unfold resolveHandlerPath at heq
  split at heq
  · match hf : h.filename with
    | Option.none => rw [hf] at heq; cases heq
    | some (FileName.path p) => rw [hf] at heq; cases heq
    | some (FileName.str s) =>
      rw [hf] at heq
      simp only [Option.some.injEq, Prod.mk.injEq] at heq
      rw [← heq.1]
  · simp only [Option.some.injEq, Prod.mk.injEq] at heq
    rw [← heq.1]

/-- Path resolution preserves the keyed severity thresholds of the whole
handler table. -/
theorem resolveHandlerPaths_levels (out : Option PyPath)
    (args : List (String × String)) (hs : List (String × HandlerConfig))
    (fs : FS) (hs' : List (String × HandlerConfig)) (fs' : FS)
    (heq : resolveHandlerPaths out args hs fs = some (hs', fs')) :
    hs'.map (fun kh => (kh.1, kh.2.level)) =
      hs.map (fun kh => (kh.1, kh.2.level)) := by
  induction hs generalizing fs hs' fs' with
  | nil =>
    simp only [resolveHandlerPaths, Option.some.injEq, Prod.mk.injEq] at heq
    rw [← heq.1]
  | cons kh rest ih =>
    obtain ⟨k, hc⟩ := kh
    unfold resolveHandlerPaths at heq
    cases h1 : resolveHandlerPath out args hc fs with
    | none => simp [h1, Bind.bind, Option.bind] at heq
    | some p1 =>
      obtain ⟨h1c, fs1⟩ := p1
      cases h2 : resolveHandlerPaths out args rest fs1 with
      | none => simp [h1, h2, Bind.bind, Option.bind] at heq
      | some p2 =>
        obtain ⟨rest1, fsr⟩ := p2
        simp only [h1, h2, Bind.bind, Option.bind, Option.some.injEq,
          Prod.mk.injEq] at heq
        rw [← heq.1]
        simp only [List.map_cons, List.cons.injEq]
        exact ⟨by rw [resolveHandlerPath_level _ _ _ _ _ _ h1],
          ih fs1 rest1 fsr h2⟩

/-- C9: when both level overrides are falsy (`None`, `0` or `""`), the
level-merging step of `render_full_log_config` is skipped entirely: the
render equals path resolution alone, so the returned configuration's root
(level and active handler list) and every handler's threshold are exactly
the template's; in particular the root level is not renormalised to a
numeric value. -/
theorem render_full_log_config_skips_levels (cfg : LogConfig)
    (f c : PyLevel) (out : Option PyPath) (args : List (String × String))
    (fs : FS) (hf : f.truthy = false) (hc : c.truthy = false) :
    render_full_log_config cfg f c out args fs =
      setup_log_handler_paths cfg out args fs ∧
    ∀ (cfg' : LogConfig) (fs' : FS),
      render_full_log_config cfg f c out args fs = some (cfg', fs') →
      cfg'.root = cfg.root ∧
      cfg'.handlers.map (fun kh => (kh.1, kh.2.level)) =
        cfg.handlers.map (fun kh => (kh.1, kh.2.level)) := by
  have hskip : render_full_log_config cfg f c out args fs =
      setup_log_handler_paths cfg out args fs := by
    unfold render_full_log_config
    cases h1 : setup_log_handler_paths cfg out args fs with
    | none => simp [h1, Bind.bind, Option.bind]
    | some p =>
      obtain ⟨c1, fs1⟩ := p
      simp [h1, Bind.bind, Option.bind, hf, hc]
  refine ⟨hskip, ?_⟩
  intro cfg' fs' heq
  rw [hskip] at heq
  unfold setup_log_handler_paths at heq
  cases h1 : resolveHandlerPaths out args cfg.handlers fs with
  | none => simp [h1, Bind.bind, Option.bind] at heq
  | some p =>
    obtain ⟨hs1, fsr⟩ := p
    simp only [h1, Bind.bind, Option.bind, Option.some.injEq,
      Prod.mk.injEq] at heq
    constructor
    · rw [← heq.1]
    · rw [← heq.1]
      exact resolveHandlerPaths_levels _ _ _ _ _ _ h1

/-- C9 (witness): at override `0` (NOTSET) for the file level and `None`
for the console level, rendering a template with root level the string
WARNING only resolves paths: the root configuration and the handler
thresholds come back unchanged and the root level stays a string. -/
theorem render_full_log_config_skips_levels_witness :
    (render_full_log_config
        { handlers :=
            [("console", { level := PyLevel.str "INFO",
                           filename := Option.none }),
             ("file", { level := PyLevel.str "INFO",
                        filename := some (FileName.str "run.log") })],
          root := { level := PyLevel.str "WARNING",
                    handlers := ["console"] } }
        (PyLevel.int 0) PyLevel.none
        (some { absolute := true, components := ["var", "log", "agent"] })
        [] [] =
      setup_log_handler_paths
        { handlers :=
            [("console", { level := PyLevel.str "INFO",
                           filename := Option.none }),
             ("file", { level := PyLevel.str "INFO",
                        filename := some (FileName.str "run.log") })],
          root := { level := PyLevel.str "WARNING",
                    handlers := ["console"] } }
        (some { absolute := true, components := ["var", "log", "agent"] })
        [] []) ∧
    ({ handlers :=
         [("console", { level := PyLevel.str "INFO",
                        filename := Option.none }),
          ("file", { level := PyLevel.str "INFO",
                     filename := some (FileName.path
                       { absolute := true,
                         components :=
                           ["var", "log", "agent", "run.log"] }) })],
       root := { level := PyLevel.str "WARNING",
                 handlers := ["console"] } } : LogConfig).root =
      ({ handlers :=
           [("console", { level := PyLevel.str "INFO",
                          filename := Option.none }),
            ("file", { level := PyLevel.str "INFO",
                       filename := some (FileName.str "run.log") })],
         root := { level := PyLevel.str "WARNING",
                   handlers := ["console"] } } : LogConfig).root :=
  ⟨(render_full_log_config_skips_levels
      { handlers :=
          [("console", { level := PyLevel.str "INFO",
                         filename := Option.none }),
           ("file", { level := PyLevel.str "INFO",
                      filename := some (FileName.str "run.log") })],
        root := { level := PyLevel.str "WARNING",
                  handlers := ["console"] } }
      (PyLevel.int 0) PyLevel.none
      (some { absolute := true, components := ["var", "log", "agent"] })
      [] [] (by decide) (by decide)).1,
   ((render_full_log_config_skips_levels
      { handlers :=
          [("console", { level := PyLevel.str "INFO",
                         filename := Option.none }),
           ("file", { level := PyLevel.str "INFO",
                      filename := some (FileName.str "run.log") })],
        root := { level := PyLevel.str "WARNING",
                  handlers := ["console"] } }
      (PyLevel.int 0) PyLevel.none
      (some { absolute := true, components := ["var", "log", "agent"] })
      [] [] (by decide) (by decide)).2
      { handlers :=
          [("console", { level := PyLevel.str "INFO",
                         filename := Option.none }),
           ("file", { level := PyLevel.str "INFO",
                      filename := some (FileName.path
                        { absolute := true,
                          components :=
                            ["var", "log", "agent", "run.log"] }) })],
        root := { level := PyLevel.str "WARNING",
                  handlers := ["console"] } }
      [{ absolute := true, components := ["var"] },
       { absolute := true, components := ["var", "log"] },
       { absolute := true, components := ["var", "log", "agent"] }]
      (by decide)).1⟩

end Brokkr
